import Mathlib

/-!
Shallow embedding of the observer-based components of `src/script.js`
(the TOC active-section highlighter, the scroll-reveal animator, and the
safe localStorage wrapper), together with theorems settling the spec
claims about them.

DOM state is made explicit: a TOC link is a record of its `href`
attribute, its `active` class flag and its `aria-current` attribute
presence; a reveal target is a record of its id and its `visible` class
flag.  An IntersectionObserver callback invocation is a batch (list) of
entries, each carrying the target id and the `isIntersecting` flag; the
callbacks of the source are folds of a per-entry transition over that
list.
-/

/-- One entry delivered to an IntersectionObserver callback: the observed
target (identified by its DOM id) and its `isIntersecting` flag. -/
structure ObserverEntry where
  targetId : String
  isIntersecting : Bool
deriving Repr, DecidableEq

/-- The option object passed to the IntersectionObserver constructor in
`script.js`: an optional `threshold` number and an optional `rootMargin`
string, exactly the fields the source supplies. -/
structure ObserverOptions where
  threshold : Option ℚ
  rootMargin : Option String
deriving Repr, DecidableEq

-- ==========================================================================
-- Safe localStorage wrapper (script.js lines 10-25)
-- ==========================================================================

/-- The external localStorage collaborator, over an abstract store state
`σ`.  Either operation may throw (modelled with `Except`): `getItem`
returns the stored string or `none` for an absent key, `setItem` returns
the updated store state. -/
structure LocalStorage (σ : Type) where
  getItem : σ → String → Except String (Option String)
  setItem : σ → String → String → Except String σ

namespace storage

/-- `storage.get` from `script.js`: try `localStorage.getItem(key)` and
return `null` (here `none`) when it throws.  Total by construction: the
result type has no error case. -/
def get {σ : Type} (ls : LocalStorage σ) (s : σ) (key : String) :
    Option String :=
  match ls.getItem s key with
  | .ok v => v
  | .error _ => none

/-- `storage.set` from `script.js`: try `localStorage.setItem(key, value)`
and ignore the error (leaving the store state unchanged) when it throws.
Total by construction: the result type has no error case. -/
def set {σ : Type} (ls : LocalStorage σ) (s : σ) (key value : String) :
    σ :=
  match ls.setItem s key value with
  | .ok s' => s'
  | .error _ => s

end storage

/-- A localStorage collaborator whose operations always throw, as when
storage access is disabled (private browsing, blocked third-party
storage). -/
def failingLocalStorage : LocalStorage Unit :=
  { getItem := fun _ _ => .error "SecurityError",
    setItem := fun _ _ _ => .error "QuotaExceededError" }

-- ==========================================================================
-- Active TOC highlighting (script.js lines 208-234, initTOC)
-- ==========================================================================

/-- A TOC anchor element: its `href` attribute, whether it carries the
`active` class, and whether the `aria-current` attribute is present. -/
structure TocLink where
  href : String
  active : Bool
  ariaCurrent : Bool
deriving Repr, DecidableEq

/-- The body of the inner `tocLinks.forEach` in `initTOC` for one
intersecting entry with target id `id`: toggle the `active` class to
`href === '#' + id` and set `aria-current` exactly on the match. -/
def tocApplyLink (id : String) (l : TocLink) : TocLink :=
  let isActive : Bool := l.href == "#" ++ id
  { l with active := isActive, ariaCurrent := isActive }

/-- The body of the `entries.forEach` in the `initTOC` observer callback
for one entry: when the entry is intersecting, rewrite every TOC link
with `tocApplyLink`; otherwise leave all links untouched. -/
def tocHandleEntry (links : List TocLink) (e : ObserverEntry) :
    List TocLink :=
  if e.isIntersecting then links.map (tocApplyLink e.targetId) else links

/-- One invocation of the `initTOC` observer callback on a batch of
entries: process the entries in order. -/
def tocHandleBatch (links : List TocLink) (batch : List ObserverEntry) :
    List TocLink :=
  batch.foldl tocHandleEntry links

/-- A sequence of observer callback invocations, each with its batch of
entries, processed in order. -/
def tocHandleBatches (links : List TocLink)
    (batches : List (List ObserverEntry)) : List TocLink :=
  batches.foldl tocHandleBatch links

/-- The target id of the most recently processed intersecting entry of a
list of entries, if any. -/
def lastIntersectingId : List ObserverEntry → Option String
  | [] => none
  | e :: rest =>
    match lastIntersectingId rest with
    | some t => some t
    | none => if e.isIntersecting then some e.targetId else none

/-- The net effect of a list of entries on a single TOC link: the last
intersecting entry wins, and with no intersecting entry the link is
untouched. -/
def tocLinkEval (entries : List ObserverEntry) (l : TocLink) : TocLink :=
  match lastIntersectingId entries with
  | some t => tocApplyLink t l
  | none => l

/-- The number of TOC links currently carrying the `active` class. -/
def countActive (links : List TocLink) : Nat :=
  (links.filter (fun l => l.active)).length

/-- The option object `\x7b rootMargin: '-20% 0% -80% 0%' \x7d` passed to
the IntersectionObserver constructor in `initTOC` (no threshold). -/
def tocObserverOptions : ObserverOptions :=
  { threshold := none, rootMargin := some "-20% 0% -80% 0%" }

/-- The observable result of running `initTOC`: which heading ids were
registered with `observer.observe`, the final link state (no callback has
run yet at initialization time), and the options of the observer that was
constructed, if one was. -/
structure TocInit where
  registered : List String
  links : Option (List TocLink)
  observerOptions : Option ObserverOptions
deriving Repr, DecidableEq

/-- `initTOC` from `script.js`: return immediately if the `toc` container
is absent (`none`) or the heading list is empty; otherwise construct the
observer with `tocObserverOptions` and observe every heading.  No DOM
mutation happens during initialization, so the link state is passed
through unchanged. -/
def initTOC (toc : Option (List TocLink)) (headings : List String) :
    TocInit :=
  match toc with
  | none => { registered := [], links := none, observerOptions := none }
  | some links =>
    if headings.length = 0 then
      { registered := [], links := some links, observerOptions := none }
    else
      { registered := headings, links := some links,
        observerOptions := some tocObserverOptions }

-- ==========================================================================
-- Reveal on scroll (script.js lines 240-260, initRevealAnimations)
-- ==========================================================================

/-- A reveal target element: its id and whether it carries the `visible`
class. -/
structure RevealEl where
  id : String
  visible : Bool
deriving Repr, DecidableEq

/-- The body of the `entries.forEach` in the `initRevealAnimations`
observer callback for one entry: when the entry is intersecting, add the
`visible` class to its target; otherwise do nothing. -/
def revealHandleEntry (els : List RevealEl) (e : ObserverEntry) :
    List RevealEl :=
  if e.isIntersecting then
    els.map (fun el =>
      if el.id = e.targetId then { el with visible := true } else el)
  else els

/-- One invocation of the `initRevealAnimations` observer callback on a
batch of entries, processed in order. -/
def revealHandleBatch (els : List RevealEl) (batch : List ObserverEntry) :
    List RevealEl :=
  batch.foldl revealHandleEntry els

/-- The option object `\x7b threshold: 0.1, rootMargin: '0px 0px -50px 0px' \x7d`
passed to the IntersectionObserver constructor in `initRevealAnimations`. -/
def revealObserverOptions : ObserverOptions :=
  { threshold := some (1 / 10), rootMargin := some "0px 0px -50px 0px" }

/-- The observable result of running `initRevealAnimations`: the element
state after initialization, the ids registered with `observer.observe`,
and the options of the observer that was constructed, if one was. -/
structure RevealInit where
  elements : List RevealEl
  registered : List String
  observerOptions : Option ObserverOptions
deriving Repr, DecidableEq

/-- `initRevealAnimations` from `script.js`: return if there are no
target elements; if the reduced-motion preference matches, add `visible`
to every element and return without constructing an observer; otherwise
construct the observer with `revealObserverOptions` and observe every
element. -/
def initRevealAnimations (elements : List RevealEl)
    (prefersReducedMotion : Bool) : RevealInit :=
  if elements.length = 0 then
    { elements := elements, registered := [], observerOptions := none }
  else if prefersReducedMotion then
    { elements := elements.map (fun el => { el with visible := true }),
      registered := [], observerOptions := none }
  else
    { elements := elements, registered := elements.map (fun el => el.id),
      observerOptions := some revealObserverOptions }

-- ==========================================================================
-- Root-margin strings, read back
-- ==========================================================================

/-- One component of a rootMargin string: an integer value with its CSS
unit (`px` or `%`). -/
structure MarginLength where
  value : Int
  unit : String
deriving Repr, DecidableEq

/-- Interpret a list of digit characters as a natural number; `none` when
empty or when a non-digit occurs. -/
def digitsToNat (cs : List Char) : Option Nat :=
  cs.foldl
    (fun acc c =>
      match acc with
      | none => none
      | some n =>
        if c.isDigit then some (n * 10 + (c.toNat - Char.toNat '0'))
        else none)
    (if cs.isEmpty then none else some 0)

/-- Interpret a list of characters as an optionally negated decimal
integer. -/
def charsToInt : List Char → Option Int
  | '-' :: rest => (digitsToNat rest).map (fun n => -(n : Int))
  | cs => (digitsToNat cs).map (fun n => (n : Int))

/-- Interpret one whitespace-separated component of a rootMargin string:
a decimal integer followed by the unit `px` or `%`. -/
def readMarginComponent (cs : List Char) : Option MarginLength :=
  match cs.reverse with
  | 'x' :: 'p' :: rest =>
    (charsToInt rest.reverse).map (fun v => { value := v, unit := "px" })
  | '%' :: rest =>
    (charsToInt rest.reverse).map (fun v => { value := v, unit := "%" })
  | _ => none

/-- Split a list of characters into the groups separated by spaces. -/
def splitOnSpace : List Char → List (List Char)
  | [] => [[]]
  | c :: cs =>
    let rest := splitOnSpace cs
    if c = ' ' then [] :: rest
    else
      match rest with
      | [] => [[c]]
      | g :: gs => (c :: g) :: gs

/-- Interpret a CSS rootMargin string as its list of margin components in
source order: top, right, bottom, left. -/
def readRootMargin (s : String) : Option (List MarginLength) :=
  (splitOnSpace s.toList).mapM readMarginComponent

-- ==========================================================================
-- Helper lemmas about the TOC transition
-- ==========================================================================

theorem tocApplyLink_href (t : String) (l : TocLink) :
    (tocApplyLink t l).href = l.href := rfl

theorem tocApplyLink_active (t : String) (l : TocLink) :
    (tocApplyLink t l).active = (l.href == "#" ++ t) := rfl

theorem tocApplyLink_ariaCurrent (t : String) (l : TocLink) :
    (tocApplyLink t l).ariaCurrent = (l.href == "#" ++ t) := rfl

theorem tocApplyLink_tocApplyLink (t s : String) (l : TocLink) :
    tocApplyLink t (tocApplyLink s l) = tocApplyLink t l := rfl

theorem tocHandleBatch_eq_map (entries : List ObserverEntry)
    (links : List TocLink) :
    tocHandleBatch links entries = links.map (tocLinkEval entries) := by
  induction entries generalizing links with
  | nil =>
    exact (List.map_id'' (fun a => rfl) links).symm
  | cons e rest ih =>
    have hstep : tocHandleBatch links (e :: rest) =
        tocHandleBatch (tocHandleEntry links e) rest := rfl
    rw [hstep, ih]
    rcases e with ⟨tid, inter⟩
    cases hlast : lastIntersectingId rest with
    | some t =>
      cases inter <;>
        simp [tocHandleEntry, tocLinkEval, lastIntersectingId, hlast,
          List.map_map, Function.comp, tocApplyLink_tocApplyLink]
    | none =>
      cases inter <;>
        simp [tocHandleEntry, tocLinkEval, lastIntersectingId, hlast]

theorem tocHandleBatches_eq_flatten (links : List TocLink)
    (batches : List (List ObserverEntry)) :
    tocHandleBatches links batches = tocHandleBatch links batches.flatten := by
  simp only [tocHandleBatch, List.foldl_flatten]
  rfl

theorem countActive_map (t : String) (links : List TocLink) :
    countActive (links.map (tocApplyLink t)) =
      (links.map TocLink.href).count ("#" ++ t) := by
  rw [countActive, ← List.countP_eq_length_filter, List.countP_map,
    List.count_eq_countP, List.countP_map]
  apply List.countP_congr
  intro l _
  simp [Function.comp, tocApplyLink]

theorem countActive_map_le_one (t : String) (links : List TocLink)
    (h : (links.map TocLink.href).Nodup) :
    countActive (links.map (tocApplyLink t)) ≤ 1 := by
  rw [countActive_map]
  exact List.nodup_iff_count_le_one.mp h _

-- ==========================================================================
-- Helper lemmas about the reveal transition
-- ==========================================================================

theorem revealHandleEntry_length (els : List RevealEl) (e : ObserverEntry) :
    (revealHandleEntry els e).length = els.length := by
  rcases e with ⟨tid, inter⟩
  cases inter <;> simp [revealHandleEntry]

theorem revealHandleEntry_visible_mono (els : List RevealEl)
    (e : ObserverEntry) (i : Nat) (hi : i < els.length)
    (hi' : i < (revealHandleEntry els e).length)
    (h : els[i].visible = true) :
    (revealHandleEntry els e)[i].visible = true := by
  rcases e with ⟨tid, inter⟩
  cases inter
  · simpa [revealHandleEntry] using h
  · simp only [revealHandleEntry, if_true]
    by_cases hid : els[i].id = tid
    · simp [List.getElem_map, hid]
    · simpa [List.getElem_map, hid] using h

theorem revealHandleBatch_length (els : List RevealEl)
    (batch : List ObserverEntry) :
    (revealHandleBatch els batch).length = els.length := by
  induction batch generalizing els with
  | nil => rfl
  | cons e rest ih =>
    have hstep : revealHandleBatch els (e :: rest) =
        revealHandleBatch (revealHandleEntry els e) rest := rfl
    rw [hstep, ih, revealHandleEntry_length]

theorem revealHandleBatch_visible_mono (batch : List ObserverEntry) :
    ∀ (els : List RevealEl) (i : Nat) (hi : i < els.length)
      (hi' : i < (revealHandleBatch els batch).length),
      els[i].visible = true →
      (revealHandleBatch els batch)[i].visible = true := by
  induction batch with
  | nil => intro els i hi hi' h; exact h
  | cons e rest ih =>
    intro els i hi hi' h
    have hi2 : i < (revealHandleEntry els e).length := by
      rw [revealHandleEntry_length]; exact hi
    exact ih (revealHandleEntry els e) i hi2 hi'
      (revealHandleEntry_visible_mono els e i hi hi2 h)

-- ==========================================================================
-- Claim theorems
-- ==========================================================================

/-- Claim C1: for every sequence of visibility notifications delivered to
the TOC highlighter — over a TOC whose links carry pairwise-distinct
hrefs and which starts, as a freshly loaded page does, with at most one
active link — after each notification is processed at most one TOC link
carries the active marker, and the active marker and the companion
aria-current attribute are on a link exactly when that link's href
fragment equals the id of the most recently processed intersecting
heading. -/
theorem toc_at_most_one_active
    (links : List TocLink) (batches : List (List ObserverEntry))
    (hnodup : (links.map TocLink.href).Nodup)
    (hinit : countActive links ≤ 1) :
    countActive (tocHandleBatches links batches) ≤ 1 ∧
      ∀ t, lastIntersectingId batches.flatten = some t →
        ∀ l ∈ tocHandleBatches links batches,
          (l.active = true ↔ l.href = "#" ++ t) ∧
          (l.ariaCurrent = true ↔ l.href = "#" ++ t) := by
  rw [tocHandleBatches_eq_flatten, tocHandleBatch_eq_map]
  cases hlast : lastIntersectingId batches.flatten with
  | none =>
    refine ⟨?_, ?_⟩
    · have hfun : ∀ a, tocLinkEval batches.flatten a = a := by
        intro a; simp [tocLinkEval, hlast]
      rw [List.map_id'' hfun links]
      exact hinit
    · intro t ht
      exact Option.noConfusion ht
  | some t0 =>
    have hfun : ∀ a, tocLinkEval batches.flatten a = tocApplyLink t0 a := by
      intro a; simp [tocLinkEval, hlast]
    have hmap : links.map (tocLinkEval batches.flatten) =
        links.map (tocApplyLink t0) :=
      List.map_congr_left (fun a _ => hfun a)
    rw [hmap]
    refine ⟨countActive_map_le_one t0 links hnodup, ?_⟩
    intro t ht l hl
    injection ht with ht
    subst ht
    rw [List.mem_map] at hl
    obtain ⟨l₀, _, rfl⟩ := hl
    constructor <;> simp [tocApplyLink]

/-- Concrete instance of claim C1: three distinct inactive links, one
notification for heading `b`. -/
theorem toc_at_most_one_active_witness :
    countActive (tocHandleBatches
      [⟨"#a", false, false⟩, ⟨"#b", false, false⟩, ⟨"#c", false, false⟩]
      [[⟨"b", true⟩]]) ≤ 1 :=
  (toc_at_most_one_active
    [⟨"#a", false, false⟩, ⟨"#b", false, false⟩, ⟨"#c", false, false⟩]
    [[⟨"b", true⟩]] (by decide) (by decide)).1

/-- Claim C2: for the reveal animator, entries with isIntersecting =
false are no-ops, an element once visible stays visible through any
notification batch, and the single batch [(x,true), (y,true), (x,false)]
over targets [x, y] leaves both x and y visible. -/
theorem reveal_visible_monotone :
    (∀ (els : List RevealEl) (e : ObserverEntry),
        e.isIntersecting = false → revealHandleEntry els e = els) ∧
      (∀ (batch : List ObserverEntry) (els : List RevealEl) (i : Nat)
          (hi : i < els.length)
          (hi' : i < (revealHandleBatch els batch).length),
          els[i].visible = true →
          (revealHandleBatch els batch)[i].visible = true) ∧
      revealHandleBatch [⟨"x", false⟩, ⟨"y", false⟩]
          [⟨"x", true⟩, ⟨"y", true⟩, ⟨"x", false⟩] =
        [⟨"x", true⟩, ⟨"y", true⟩] := by
  refine ⟨?_, revealHandleBatch_visible_mono, by decide⟩
  intro els e h
  simp [revealHandleEntry, h]

/-- Concrete instance of claim C2: a false entry is a no-op and an
already-visible element stays visible. -/
theorem reveal_visible_monotone_witness :
    revealHandleEntry [⟨"x", true⟩] ⟨"x", false⟩ = [⟨"x", true⟩] ∧
      ((revealHandleBatch [⟨"x", true⟩] [⟨"y", false⟩]).get
        ⟨0, by decide⟩).visible = true :=
  ⟨reveal_visible_monotone.1 [⟨"x", true⟩] ⟨"x", false⟩ rfl,
   reveal_visible_monotone.2.1 [⟨"y", false⟩] [⟨"x", true⟩] 0
     (by decide) (by decide) (by decide)⟩

/-- Claim C3: with TOC links #a, #b, #c (initially inactive) and headings
a, b, c, a single visibility-changed(b, true) notification leaves exactly
the link with href "#b" active and carrying aria-current, while "#a" and
"#c" stay inactive without aria-current. -/
theorem toc_single_event_activates_b :
    tocHandleEntry
      [⟨"#a", false, false⟩, ⟨"#b", false, false⟩, ⟨"#c", false, false⟩]
      ⟨"b", true⟩ =
      [⟨"#a", false, false⟩, ⟨"#b", true, true⟩, ⟨"#c", false, false⟩] := by
  decide

/-- Claim C4: with the reduced-motion preference set and a non-empty
target list, initialization marks every target visible immediately and
performs no observer registration (no observer is constructed at all). -/
theorem initReveal_reduced_motion (elements : List RevealEl)
    (hne : elements ≠ []) :
    (∀ el ∈ (initRevealAnimations elements true).elements,
        el.visible = true) ∧
      (initRevealAnimations elements true).registered = [] ∧
      (initRevealAnimations elements true).observerOptions = none := by
  have hlen : ¬ elements.length = 0 := fun h =>
    hne (List.length_eq_zero.mp h)
  refine ⟨?_, ?_, ?_⟩
  · intro el hel
    simp [initRevealAnimations, hlen, List.mem_map] at hel
    obtain ⟨el₀, _, rfl⟩ := hel
    rfl
  · simp [initRevealAnimations, hlen]
  · simp [initRevealAnimations, hlen]

/-- Concrete instance of claim C4: a single hidden target is revealed at
once and nothing is registered. -/
theorem initReveal_reduced_motion_witness :
    (⟨"x", true⟩ : RevealEl).visible = true ∧
      (initRevealAnimations [⟨"x", false⟩] true).registered = [] ∧
      (initRevealAnimations [⟨"x", false⟩] true).observerOptions = none :=
  ⟨(initReveal_reduced_motion [⟨"x", false⟩] (by decide)).1
      ⟨"x", true⟩ (by decide),
   (initReveal_reduced_motion [⟨"x", false⟩] (by decide)).2.1,
   (initReveal_reduced_motion [⟨"x", false⟩] (by decide)).2.2⟩

/-- Claim C5: if the TOC container is absent or there are no headings,
initTOC registers nothing and leaves the link state untouched; being a
total Lean function, it does not throw. -/
theorem initTOC_noop_when_missing (toc : Option (List TocLink))
    (headings : List String) (h : toc = none ∨ headings = []) :
    (initTOC toc headings).registered = [] ∧
      (initTOC toc headings).links = toc ∧
      (initTOC toc headings).observerOptions = none := by
  rcases h with h | h
  · subst h
    exact ⟨rfl, rfl, rfl⟩
  · subst h
    cases toc with
    | none => exact ⟨rfl, rfl, rfl⟩
    | some links => exact ⟨rfl, rfl, rfl⟩

/-- Concrete instance of claim C5: absent container. -/
theorem initTOC_noop_when_missing_witness :
    (initTOC none ["a"]).registered = [] ∧
      (initTOC none ["a"]).links = none ∧
      (initTOC none ["a"]).observerOptions = none :=
  initTOC_noop_when_missing none ["a"] (Or.inl rfl)

/-- Claim C6: when the underlying preference store throws, storage.get
returns the absent value (none) and storage.set completes as a no-op on
the store state; both wrappers are total functions, so neither operation
ever throws. -/
theorem storage_swallows_errors {σ : Type} (ls : LocalStorage σ) (s : σ)
    (key value : String) (eg es : String)
    (hg : ls.getItem s key = .error eg)
    (hs : ls.setItem s key value = .error es) :
    storage.get ls s key = none ∧ storage.set ls s key value = s := by
  constructor
  · simp [storage.get, hg]
  · simp [storage.set, hs]

/-- Concrete instance of claim C6: a store that always throws. -/
theorem storage_swallows_errors_witness :
    storage.get failingLocalStorage () "theme" = none ∧
      storage.set failingLocalStorage () "theme" "dark" = () :=
  storage_swallows_errors failingLocalStorage () "theme" "dark"
    "SecurityError" "QuotaExceededError" rfl rfl

/-- Claim C7: without reduced motion (and with targets present) the
reveal observer is constructed with threshold 0.1 and rootMargin
"0px 0px -50px 0px", whose components read back as top 0px, right 0px,
bottom -50px — the trigger line pulled 50px earlier — and left 0px. -/
theorem initReveal_observer_configuration (elements : List RevealEl)
    (hne : elements ≠ []) :
    (initRevealAnimations elements false).observerOptions =
        some revealObserverOptions ∧
      revealObserverOptions.threshold = some (1 / 10) ∧
      revealObserverOptions.rootMargin.bind readRootMargin =
        some [⟨0, "px"⟩, ⟨0, "px"⟩, ⟨-50, "px"⟩, ⟨0, "px"⟩] := by
  have hlen : ¬ elements.length = 0 := fun h =>
    hne (List.length_eq_zero.mp h)
  exact ⟨by simp [initRevealAnimations, hlen], rfl, by decide⟩

/-- Concrete instance of claim C7. -/
theorem initReveal_observer_configuration_witness :
    (initRevealAnimations [⟨"x", false⟩] false).observerOptions =
        some revealObserverOptions ∧
      revealObserverOptions.threshold = some (1 / 10) ∧
      revealObserverOptions.rootMargin.bind readRootMargin =
        some [⟨0, "px"⟩, ⟨0, "px"⟩, ⟨-50, "px"⟩, ⟨0, "px"⟩] :=
  initReveal_observer_configuration [⟨"x", false⟩] (by decide)

/-- Claim C8: with the container present and headings non-empty, the TOC
observer is constructed with rootMargin "-20% 0% -80% 0%", whose
components read back as top -20%, right 0%, bottom -80%, left 0%: the
visibility band excludes the top 20% and the bottom 80% of the
viewport. -/
theorem initTOC_observer_configuration (links : List TocLink)
    (headings : List String) (hne : headings ≠ []) :
    (initTOC (some links) headings).observerOptions =
        some tocObserverOptions ∧
      tocObserverOptions.rootMargin.bind readRootMargin =
        some [⟨-20, "%"⟩, ⟨0, "%"⟩, ⟨-80, "%"⟩, ⟨0, "%"⟩] := by
  have hlen : ¬ headings.length = 0 := fun h =>
    hne (List.length_eq_zero.mp h)
  exact ⟨by simp [initTOC, hlen], by decide⟩

/-- Concrete instance of claim C8. -/
theorem initTOC_observer_configuration_witness :
    (initTOC (some []) ["a"]).observerOptions = some tocObserverOptions ∧
      tocObserverOptions.rootMargin.bind readRootMargin =
        some [⟨-20, "%"⟩, ⟨0, "%"⟩, ⟨-80, "%"⟩, ⟨0, "%"⟩] :=
  initTOC_observer_configuration [] ["a"] (by decide)

/-- Claim C9: an intersecting notification whose heading id matches no
link's href fragment deactivates every link and removes every
aria-current attribute, so zero active links is a reachable state. -/
theorem toc_no_match_all_inactive (links : List TocLink) (t : String)
    (h : ∀ l ∈ links, l.href ≠ "#" ++ t) :
    ∀ l ∈ tocHandleEntry links ⟨t, true⟩,
      l.active = false ∧ l.ariaCurrent = false := by
  intro l hl
  have hmap : tocHandleEntry links ⟨t, true⟩ =
      links.map (tocApplyLink t) := rfl
  rw [hmap, List.mem_map] at hl
  obtain ⟨l₀, hl₀, rfl⟩ := hl
  have hne := h l₀ hl₀
  constructor <;> simp [tocApplyLink, beq_eq_false_iff_ne, hne]

/-- Concrete instance of claim C9: heading `z` matches no link, so the
previously active link ends inactive. -/
theorem toc_no_match_all_inactive_witness :
    (⟨"#a", false, false⟩ : TocLink).active = false ∧
      (⟨"#a", false, false⟩ : TocLink).ariaCurrent = false :=
  toc_no_match_all_inactive [⟨"#a", true, true⟩] "z" (by decide)
    ⟨"#a", false, false⟩ (by decide)

/-- Claim C10: a notification entry with isIntersecting = false leaves
the active marker and aria-current attribute of every TOC link exactly
as they were before the entry. -/
theorem toc_nonintersecting_noop (links : List TocLink)
    (e : ObserverEntry) (h : e.isIntersecting = false) :
    tocHandleEntry links e = links := by
  simp [tocHandleEntry, h]

/-- Concrete instance of claim C10. -/
theorem toc_nonintersecting_noop_witness :
    tocHandleEntry [⟨"#a", true, true⟩, ⟨"#b", false, false⟩]
        ⟨"b", false⟩ =
      [⟨"#a", true, true⟩, ⟨"#b", false, false⟩] :=
  toc_nonintersecting_noop [⟨"#a", true, true⟩, ⟨"#b", false, false⟩]
    ⟨"b", false⟩ rfl
